import Mathlib

/-!
Verification of the background-job pipeline of the blog backend
(`blog/tasks.py`): the notification job `send_post_notification`, the
stats job `generate_post_stats` and the retention job
`cleanup_old_drafts`, shallowly embedded over an explicit post/comment
store.  The jobs are embedded from the source; the ORM rows they read
are modelled from the specification, since `blog/models.py` is not among
the staged source files.
-/

/-- Modelled from the spec: `blog/models.py` is absent from the staged
sources; a `Post` row follows §3 of the spec — identifier (unique),
title, body text, author reference, published flag and an immutable
creation timestamp (an integer time value, in seconds). -/
structure Post where
  id : Int
  title : String
  body : String
  author : Int
  published : Bool
  created_at : Int
deriving DecidableEq, Repr

/-- Modelled from the spec: a `Comment` row follows §3 of the spec —
identifier, reference to the owning post (many-to-one), author
reference, body text. -/
structure Comment where
  id : Int
  post_id : Int
  author : Int
  body : String
deriving DecidableEq, Repr

/-- Modelled from the spec: the Post Store of §2/§6 — the rows the ORM
sees: the posts together with their comments. -/
structure Store where
  posts : List Post
  comments : List Comment
deriving DecidableEq, Repr

/-- `Post.objects.get(id=post_id)`: the row with the given primary key;
`none` plays the role of the `Post.DoesNotExist` branch.  Primary keys
are unique, so the first matching row is the row. -/
def getPost (store : Store) (post_id : Int) : Option Post :=
  store.posts.find? (fun p => p.id == post_id)

/-- One `send_mail(...)` invocation as `send_post_notification` issues
it: the keyword arguments of the call at `blog/tasks.py:26-31`, plus
whether the mail sink accepted the call (`ok = false` records that the
call raised a transport error). -/
structure MailCall where
  subject : String
  message : String
  from_email : String
  recipient_list : List String
  ok : Bool
deriving DecidableEq, Repr

/-- The `send_mail` call of `send_post_notification` for one address. -/
def mkMailCall (title email : String) (ok : Bool) : MailCall :=
  { subject := "New post: " ++ title
    message := "Check out the new post: " ++ title
    from_email := "noreply@blog.com"
    recipient_list := [email]
    ok := ok }

/-- The dict returned by `send_post_notification`: `sent` is always
present; `post_id` is present only on the found branch and `error` only
on the not-found branch (`none` models an absent key). -/
structure NotifyResult where
  sent : Nat
  post_id : Option Int
  error : Option String
deriving DecidableEq, Repr

/-- The `for email in recipient_emails` loop of `send_post_notification`
(`blog/tasks.py:24-32`).  `failsAt i = true` means the i-th `send_mail`
call raises a transport error; the loop body catches nothing, so a
raised error stops the loop and propagates.  Returns the `send_mail`
calls that were invoked, and either the propagated error or the final
value of the `sent` counter. -/
def notifyLoop (title : String) (failsAt : Nat → Bool) :
    List String → Nat → Nat → List MailCall × Except String Nat
  | [], _, sent => ([], Except.ok sent)
  | email :: rest, idx, sent =>
    if failsAt idx then
      ([mkMailCall title email false], Except.error "transport error")
    else
      let r := notifyLoop title failsAt rest (idx + 1) (sent + 1)
      (mkMailCall title email true :: r.1, r.2)

/-- `send_post_notification(post_id, recipient_emails)`
(`blog/tasks.py:5-34`), run against `store` with a mail sink whose i-th
call fails iff `failsAt i`.  The task runs no write query, so the store
component comes back unchanged; the middle component lists the
`send_mail` calls that were invoked; the last one is the returned dict,
or the uncaught transport error. -/
def send_post_notification (store : Store) (post_id : Int)
    (recipient_emails : List String) (failsAt : Nat → Bool) :
    Store × List MailCall × Except String NotifyResult :=
  match getPost store post_id with
  | none =>
    (store, [], Except.ok { sent := 0, post_id := none, error := some "post not found" })
  | some post =>
    let r := notifyLoop post.title failsAt recipient_emails 0 0
    match r.2 with
    | Except.error e => (store, r.1, Except.error e)
    | Except.ok sent =>
      (store, r.1, Except.ok { sent := sent, post_id := some post_id, error := none })

/-- The dict returned by `generate_post_stats`; `none` models an absent
key, so the not-found branch carries only the `error` key. -/
structure StatsResult where
  post_id : Option Int
  title : Option String
  comment_count : Option Nat
  error : Option String
deriving DecidableEq, Repr

/-- `post.comments.count()`: how many comments reference `post` as their
owning post. -/
def commentCount (store : Store) (post : Post) : Nat :=
  (store.comments.filter (fun c => c.post_id == post.id)).length

/-- `generate_post_stats(post_id)` (`blog/tasks.py:37-58`): a pure read;
the store comes back unchanged and no mail is involved. -/
def generate_post_stats (store : Store) (post_id : Int) :
    Store × StatsResult :=
  match getPost store post_id with
  | none =>
    (store, { post_id := none, title := none, comment_count := none,
              error := some "post not found" })
  | some post =>
    (store, { post_id := some post_id, title := some post.title,
              comment_count := some (commentCount store post), error := none })

/-- `timedelta(days=30)`, with timestamps measured in seconds. -/
def thirtyDays : Int := 30 * 86400

/-- The row selection `Post.objects.filter(published=False,
created_at__lt=cutoff)` with `cutoff = now - timedelta(days=30)`. -/
def isOldDraft (now : Int) (p : Post) : Bool :=
  !p.published && decide (p.created_at < now - thirtyDays)

/-- The dict returned by `cleanup_old_drafts`. -/
structure RetentionResult where
  deleted : Nat
deriving DecidableEq, Repr

/-- `cleanup_old_drafts()` (`blog/tasks.py:61-76`) invoked at time
`now`: counts the selected rows, deletes exactly them, and returns the
count. -/
def cleanup_old_drafts (store : Store) (now : Int) :
    Store × RetentionResult :=
  let old_drafts := store.posts.filter (isOldDraft now)
  let count := old_drafts.length
  ({ store with posts := store.posts.filter (fun p => !(isOldDraft now p)) },
   { deleted := count })

/-- `k` successive invocations of `send_post_notification` with the same
arguments, the store threaded from one run into the next, the mail-sink
calls of all runs concatenated in order; the i-th call of run `j` fails
iff `failsAt j i`. -/
def notifyRuns (post_id : Int) (emails : List String) :
    Nat → Store → (Nat → Nat → Bool) → Store × List MailCall
  | 0, store, _ => (store, [])
  | k + 1, store, failsAt =>
    let r := send_post_notification store post_id emails (failsAt 0)
    let rest := notifyRuns post_id emails k r.1 (fun j => failsAt (j + 1))
    (rest.1, r.2.1 ++ rest.2)

deriving instance DecidableEq for Except

/-- A store with no rows at all. -/
def emptyStore : Store := { posts := [], comments := [] }

/-- The post of the spec's concrete scenario 1: id 7, title "Hello". -/
def P7 : Post := { id := 7, title := "Hello", body := "b", author := 1,
                   published := true, created_at := 0 }

/-- A store holding only `P7`. -/
def S7 : Store := { posts := [P7], comments := [] }

/-- A published post with id 1 used to exercise comment counting. -/
def PC : Post := { id := 1, title := "T", body := "", author := 1,
                   published := true, created_at := 0 }

/-- A store in which post 1 owns two of the three comments. -/
def SC : Store :=
  { posts := [PC],
    comments := [{ id := 1, post_id := 1, author := 2, body := "x" },
                 { id := 2, post_id := 1, author := 3, body := "y" },
                 { id := 3, post_id := 9, author := 3, body := "z" }] }

/-- When no `send_mail` call in range raises, the loop invokes one
accepted call per address, in order, and finishes with the counter
increased by the number of addresses. -/
theorem notifyLoop_ok (title : String) (failsAt : Nat → Bool) :
    ∀ (emails : List String) (idx sent : Nat),
      (∀ i, i < emails.length → failsAt (idx + i) = false) →
      notifyLoop title failsAt emails idx sent =
        (emails.map (fun e => mkMailCall title e true),
         Except.ok (sent + emails.length)) := by
  intro emails
  induction emails with
  | nil => intro idx sent _; simp [notifyLoop]
  | cons e rest ih =>
    intro idx sent h
    have h0 : failsAt idx = false := by simpa using h 0 (by simp)
    have hrest : ∀ i, i < rest.length → failsAt (idx + 1 + i) = false := by
      intro i hi
      have := h (i + 1) (by simpa using Nat.succ_lt_succ hi)
      simpa [Nat.add_comm, Nat.add_left_comm] using this
    simp only [notifyLoop, h0, Bool.false_eq_true, if_false, ih (idx + 1) (sent + 1) hrest,
      List.map_cons, List.length_cons]
    have harith : sent + 1 + rest.length = sent + (rest.length + 1) := by omega
    rw [harith]

/-- When the first raising `send_mail` call is the one at position `j`,
the loop stops right after it: `j + 1` calls were invoked and the
transport error propagates. -/
theorem notifyLoop_fail (title : String) (failsAt : Nat → Bool) :
    ∀ (emails : List String) (j idx sent : Nat),
      j < emails.length →
      (∀ i, i < j → failsAt (idx + i) = false) →
      failsAt (idx + j) = true →
      (notifyLoop title failsAt emails idx sent).1.length = j + 1 ∧
      (notifyLoop title failsAt emails idx sent).2 = Except.error "transport error" := by
  intro emails
  induction emails with
  | nil => intro j idx sent hj; simp at hj
  | cons e rest ih =>
    intro j idx sent hj hlt hfail
    cases j with
    | zero =>
      have h0 : failsAt idx = true := by simpa using hfail
      simp [notifyLoop, h0]
    | succ j' =>
      have h0 : failsAt idx = false := by simpa using hlt 0 (Nat.succ_pos _)
      have hlt' : ∀ i, i < j' → failsAt (idx + 1 + i) = false := by
        intro i hi
        have := hlt (i + 1) (Nat.succ_lt_succ hi)
        simpa [Nat.add_comm, Nat.add_left_comm] using this
      have hfail' : failsAt (idx + 1 + j') = true := by
        simpa [Nat.add_comm, Nat.add_left_comm] using hfail
      have := ih j' (idx + 1) (sent + 1) (by simpa using Nat.lt_of_succ_lt_succ hj) hlt' hfail'
      simp only [notifyLoop, h0, Bool.false_eq_true, if_false, List.length_cons]
      exact ⟨by rw [this.1], this.2⟩

/-- If the loop returns a count at all, every address was processed: the
count is the initial counter plus the list length, and one call per
address was invoked. -/
theorem notifyLoop_ok_inv (title : String) (failsAt : Nat → Bool) :
    ∀ (emails : List String) (idx sent m : Nat),
      (notifyLoop title failsAt emails idx sent).2 = Except.ok m →
      m = sent + emails.length ∧
      (notifyLoop title failsAt emails idx sent).1.length = emails.length := by
  intro emails
  induction emails with
  | nil => intro idx sent m h; simp [notifyLoop] at h ⊢; omega
  | cons e rest ih =>
    intro idx sent m h
    cases hb : failsAt idx with
    | true => simp [notifyLoop, hb] at h
    | false =>
      simp only [notifyLoop, hb, Bool.false_eq_true, if_false] at h ⊢
      obtain ⟨hm, hlen⟩ := ih (idx + 1) (sent + 1) m h
      refine ⟨by simp only [List.length_cons]; omega, ?_⟩
      simp [List.length_cons, hlen]

/-- The notification task never writes to the store. -/
theorem notify_store_unchanged (store : Store) (pid : Int)
    (emails : List String) (failsAt : Nat → Bool) :
    (send_post_notification store pid emails failsAt).1 = store := by
  unfold send_post_notification
  cases getPost store pid with
  | none => rfl
  | some post =>
    cases h : (notifyLoop post.title failsAt emails 0 0).2 <;> simp [h]

/-- The found branch of `send_post_notification` when no `send_mail`
call in range raises: one accepted call per recipient and the dict
`{sent: n, post_id: pid}`. -/
theorem notify_found_ok (store : Store) (pid : Int) (emails : List String)
    (failsAt : Nat → Bool) (post : Post)
    (hfound : getPost store pid = some post)
    (hok : ∀ i, i < emails.length → failsAt i = false) :
    send_post_notification store pid emails failsAt =
      (store, emails.map (fun e => mkMailCall post.title e true),
       Except.ok { sent := emails.length, post_id := some pid, error := none }) := by
  have hloop := notifyLoop_ok post.title failsAt emails 0 0 (by simpa using hok)
  unfold send_post_notification
  rw [hfound]
  simp [hloop]

/-- The found branch of `send_post_notification` in terms of the loop:
the calls are the loop's calls and the outcome is the loop's outcome
with the counter wrapped into the returned dict. -/
theorem notify_found_split (store : Store) (pid : Int) (emails : List String)
    (failsAt : Nat → Bool) (post : Post)
    (hfound : getPost store pid = some post) :
    send_post_notification store pid emails failsAt =
      (store, (notifyLoop post.title failsAt emails 0 0).1,
        (notifyLoop post.title failsAt emails 0 0).2.map
          (fun sent => { sent := sent, post_id := some pid, error := none })) := by
  unfold send_post_notification
  rw [hfound]
  cases h : (notifyLoop post.title failsAt emails 0 0).2 <;> simp [h, Except.map]

/-- The retention selection holds exactly of unpublished posts strictly
older than the cutoff. -/
theorem isOldDraft_iff (now : Int) (p : Post) :
    isOldDraft now p = true ↔ (p.published = false ∧ p.created_at < now - thirtyDays) := by
  cases hp : p.published <;> simp [isOldDraft, hp]

/-- The retention selection as a decided proposition. -/
theorem isOldDraft_decide (now : Int) (p : Post) :
    isOldDraft now p = decide (p.published = false ∧ p.created_at < now - thirtyDays) := by
  cases hp : p.published <;> simp [isOldDraft, hp]

/-- A post survives the retention selection exactly when it is not an
unpublished post strictly older than the cutoff. -/
theorem isOldDraft_false_iff (now : Int) (p : Post) :
    (!(isOldDraft now p)) = true ↔
      ¬(p.published = false ∧ p.created_at < now - thirtyDays) := by
  rw [← isOldDraft_iff]
  cases isOldDraft now p <;> simp

/-- The stats task never writes to the store. -/
theorem stats_store_unchanged (store : Store) (pid : Int) :
    (generate_post_stats store pid).1 = store := by
  unfold generate_post_stats
  cases getPost store pid <;> rfl

/-- With a failure-free mail sink, `k` repeated invocations on a stored
post invoke the sink `k` times the recipient-list length in total. -/
theorem notifyRuns_length (pid : Int) (emails : List String) (post : Post) :
    ∀ (k : Nat) (store : Store) (failsAt : Nat → Nat → Bool),
      getPost store pid = some post →
      (∀ j i, i < emails.length → failsAt j i = false) →
      (notifyRuns pid emails k store failsAt).2.length = k * emails.length := by
  intro k
  induction k with
  | zero => intro store failsAt _ _; simp [notifyRuns]
  | succ k ih =>
    intro store failsAt hfound hok
    simp only [notifyRuns]
    rw [notify_found_ok store pid emails (failsAt 0) post hfound (hok 0)]
    have hrest := ih store (fun j => failsAt (j + 1)) hfound (fun j i hi => hok (j + 1) i hi)
    simp [hrest, Nat.succ_mul, Nat.add_comm]

/-- Claim C1, counterexample: store a post with id 7, notify the two
recipients a@x.com and b@x.com with a mail sink that raises a transport
error on the first call.  Contrary to the claim, only one mail-sink call
is invoked (the second recipient is never attempted) and no result is
returned — the transport error propagates out of the task. -/
theorem notify_transport_error_cex :
    (send_post_notification S7 7 ["a@x.com", "b@x.com"] (fun i => i == 0)).2.2 =
      Except.error "transport error" ∧
    (send_post_notification S7 7 ["a@x.com", "b@x.com"] (fun i => i == 0)).2.1.length = 1 ∧
    (send_post_notification S7 7 ["a@x.com", "b@x.com"] (fun i => i == 0)).2.1.length ≠ 2 :=
  ⟨rfl, rfl, by decide⟩

/-- Claim C1, amended: for a stored post, if the mail-sink call at
position `j` is the first to raise a transport error, the notification
job stops there — exactly `j + 1` send calls were invoked, subsequent
recipients are not attempted, and the job returns no result: the
transport error propagates. -/
theorem notify_transport_error_aborts (store : Store) (pid : Int)
    (emails : List String) (failsAt : Nat → Bool) (post : Post) (j : Nat)
    (hfound : getPost store pid = some post)
    (hj : j < emails.length)
    (hpre : ∀ i, i < j → failsAt i = false)
    (hfail : failsAt j = true) :
    (send_post_notification store pid emails failsAt).2.1.length = j + 1 ∧
    (send_post_notification store pid emails failsAt).2.2 =
      Except.error "transport error" := by
  obtain ⟨hlen, herr⟩ := notifyLoop_fail post.title failsAt emails j 0 0 hj
    (by simpa using hpre) (by simpa using hfail)
  unfold send_post_notification
  rw [hfound]
  simp [herr, hlen]

/-- Witness for the amended C1 at the counterexample input. -/
theorem notify_transport_error_aborts_w :
    getPost S7 7 = some P7 ∧
    (send_post_notification S7 7 ["a@x.com", "b@x.com"] (fun i => i == 0)).2.1.length = 1 ∧
    (send_post_notification S7 7 ["a@x.com", "b@x.com"] (fun i => i == 0)).2.2 =
      Except.error "transport error" :=
  ⟨rfl, notify_transport_error_aborts S7 7 ["a@x.com", "b@x.com"] (fun i => i == 0) P7 0
    rfl (by decide) (fun i hi => absurd hi (Nat.not_lt_zero i)) rfl⟩

/-- Claim C2: for every store state and invocation time, the retention
job deletes exactly the posts with `published = false` and creation
timestamp strictly earlier than `now` minus the 30-day cutoff, keeps
every other post, reports the number of selected posts, and leaves the
comments untouched. -/
theorem cleanup_old_drafts_exact (store : Store) (now : Int) :
    (∀ p : Post, p ∈ (cleanup_old_drafts store now).1.posts ↔
        p ∈ store.posts ∧ ¬(p.published = false ∧ p.created_at < now - thirtyDays)) ∧
    (cleanup_old_drafts store now).2.deleted =
      (store.posts.filter
        (fun p => decide (p.published = false ∧ p.created_at < now - thirtyDays))).length ∧
    (cleanup_old_drafts store now).1.comments = store.comments := by
  refine ⟨fun p => ?_, ?_, rfl⟩
  · simp only [cleanup_old_drafts, List.mem_filter, isOldDraft_false_iff]
  · simp only [cleanup_old_drafts]
    congr 1
    exact List.filter_congr (fun p _ => isOldDraft_decide now p)

/-- Claim C3: a stored post with `published = true` is still in the
store after the retention job runs, regardless of its age. -/
theorem cleanup_keeps_published (store : Store) (now : Int) (p : Post)
    (hmem : p ∈ store.posts) (hpub : p.published = true) :
    p ∈ (cleanup_old_drafts store now).1.posts := by
  simp only [cleanup_old_drafts]
  exact List.mem_filter.mpr ⟨hmem, by simp [isOldDraft, hpub]⟩

/-- Witness for C3: a published post created at time 0 survives a
cleanup run 100 days later. -/
theorem cleanup_keeps_published_w :
    P7 ∈ S7.posts ∧ P7.published = true ∧
    P7 ∈ (cleanup_old_drafts S7 (100 * 86400)).1.posts :=
  ⟨by decide, rfl, cleanup_keeps_published S7 (100 * 86400) P7 (by decide) rfl⟩

/-- Claim C4: for a stored post and a failure-free mail sink, the
notification job invokes the sink exactly once per recipient in order,
and the returned dict reports `sent` equal to the list length (the
attempted count equals the list length and the succeeded count equals
it, hence is at most it); with the empty list this means zero calls and
`sent = 0`. -/
theorem notify_counts (store : Store) (pid : Int) (emails : List String)
    (failsAt : Nat → Bool) (post : Post)
    (hfound : getPost store pid = some post)
    (hok : ∀ i, i < emails.length → failsAt i = false) :
    ((send_post_notification store pid emails failsAt).2.1).map
        (fun c => c.recipient_list) = emails.map (fun e => [e]) ∧
    ((send_post_notification store pid emails failsAt).2.1).length = emails.length ∧
    (send_post_notification store pid emails failsAt).2.2 =
      Except.ok { sent := emails.length, post_id := some pid, error := none } := by
  rw [notify_found_ok store pid emails failsAt post hfound hok]
  refine ⟨?_, by simp, rfl⟩
  simp [List.map_map, mkMailCall, Function.comp]

/-- Witness for C4: the spec's concrete scenario 1 — post id 7, title
"Hello", two recipients, two calls, `sent = 2`. -/
theorem notify_counts_w :
    getPost S7 7 = some P7 ∧
    ((send_post_notification S7 7 ["a@x.com", "b@x.com"] (fun _ => false)).2.1).map
        (fun c => c.recipient_list) = [["a@x.com"], ["b@x.com"]] ∧
    (send_post_notification S7 7 ["a@x.com", "b@x.com"] (fun _ => false)).2.2 =
      Except.ok { sent := 2, post_id := some 7, error := none } := by
  have h := notify_counts S7 7 ["a@x.com", "b@x.com"] (fun _ => false) P7 rfl (fun i _ => rfl)
  exact ⟨rfl, h.1, h.2.2⟩

/-- Claim C5, counterexample: notifying a missing post id returns the
dict `{sent: 0, error: "post not found"}` with no `post_id` key, not the
dict the claim describes, which would also carry the post id. -/
theorem notify_missing_post_cex :
    (send_post_notification emptyStore 42 ["a@x.com"] (fun _ => false)).2.2 =
      Except.ok { sent := 0, post_id := none, error := some "post not found" } ∧
    (send_post_notification emptyStore 42 ["a@x.com"] (fun _ => false)).2.2 ≠
      Except.ok { sent := 0, post_id := some 42, error := some "post not found" } :=
  ⟨rfl, by decide⟩

/-- Claim C5, amended: for every recipient list and mail-sink behaviour,
notifying a post id that does not resolve returns the dict
`{sent: 0, error: "post not found"}` — with no post id in it — performs
no mail-sink call and leaves the store unchanged. -/
theorem notify_missing_post (store : Store) (pid : Int) (emails : List String)
    (failsAt : Nat → Bool) (habsent : getPost store pid = none) :
    send_post_notification store pid emails failsAt =
      (store, [], Except.ok { sent := 0, post_id := none, error := some "post not found" }) := by
  unfold send_post_notification
  rw [habsent]

/-- Witness for the amended C5 on an empty store. -/
theorem notify_missing_post_w :
    getPost emptyStore 42 = none ∧
    send_post_notification emptyStore 42 ["a@x.com"] (fun _ => false) =
      (emptyStore, [], Except.ok { sent := 0, post_id := none, error := some "post not found" }) :=
  ⟨rfl, notify_missing_post emptyStore 42 ["a@x.com"] (fun _ => false) rfl⟩

/-- Claim C6: for a stored post, the stats job returns the post id, the
post's title and a comment count equal to the number of comments whose
owning post it is, and it leaves the store unchanged. -/
theorem stats_found (store : Store) (pid : Int) (post : Post)
    (hfound : getPost store pid = some post) :
    generate_post_stats store pid =
      (store, { post_id := some pid, title := some post.title,
                comment_count := some ((store.comments.filter
                  (fun c => decide (c.post_id = post.id))).length),
                error := none }) := by
  unfold generate_post_stats
  rw [hfound]
  rfl

/-- Witness for C6: post 1 owns two of the three stored comments, so
`comment_count = 2`. -/
theorem stats_found_w :
    getPost SC 1 = some PC ∧
    generate_post_stats SC 1 =
      (SC, { post_id := some 1, title := some "T", comment_count := some 2, error := none }) :=
  ⟨rfl, stats_found SC 1 PC rfl⟩

/-- Claim C7: for a post id that does not resolve, the stats job returns
a dict carrying only the error marker — in particular no comment_count
key — and leaves the store unchanged (the stats job touches no mail at
all by construction). -/
theorem stats_missing (store : Store) (pid : Int)
    (habsent : getPost store pid = none) :
    generate_post_stats store pid =
      (store, { post_id := none, title := none, comment_count := none,
                error := some "post not found" }) := by
  unfold generate_post_stats
  rw [habsent]

/-- Witness for C7 on an empty store. -/
theorem stats_missing_w :
    getPost emptyStore 99 = none ∧
    generate_post_stats emptyStore 99 =
      (emptyStore, { post_id := none, title := none, comment_count := none,
                     error := some "post not found" }) :=
  ⟨rfl, stats_missing emptyStore 99 rfl⟩

/-- Claim C8: running the stats job twice in succession with the same
post id and no intervening store change yields two equal results, and
the store after both runs is the initial store. -/
theorem stats_idempotent (store : Store) (pid : Int) :
    (generate_post_stats ((generate_post_stats store pid).1) pid).2 =
      (generate_post_stats store pid).2 ∧
    (generate_post_stats ((generate_post_stats store pid).1) pid).1 = store := by
  rw [stats_store_unchanged store pid]
  exact ⟨rfl, stats_store_unchanged store pid⟩

/-- Claim C9: for a stored post and a failure-free mail sink, `k`
invocations of the notification job with the same arguments invoke the
sink exactly `k * n` times in total for a recipient list of length `n`
(no deduplication across invocations), while within one invocation each
address of the list receives exactly one call, in list order. -/
theorem notify_no_dedup (store : Store) (pid : Int) (emails : List String)
    (failsAt : Nat → Nat → Bool) (post : Post) (k : Nat)
    (hfound : getPost store pid = some post)
    (hok : ∀ j i, i < emails.length → failsAt j i = false) :
    (notifyRuns pid emails k store failsAt).2.length = k * emails.length ∧
    ((send_post_notification store pid emails (failsAt 0)).2.1).map
        (fun c => c.recipient_list) = emails.map (fun e => [e]) := by
  refine ⟨notifyRuns_length pid emails post k store failsAt hfound hok, ?_⟩
  rw [notify_found_ok store pid emails (failsAt 0) post hfound (hok 0)]
  simp [List.map_map, mkMailCall, Function.comp]

/-- Witness for C9: two invocations on two recipients make four
mail-sink calls in total. -/
theorem notify_no_dedup_w :
    getPost S7 7 = some P7 ∧
    (notifyRuns 7 ["a@x.com", "b@x.com"] 2 S7 (fun _ _ => false)).2.length = 4 ∧
    ((send_post_notification S7 7 ["a@x.com", "b@x.com"] (fun _ => false)).2.1).map
        (fun c => c.recipient_list) = [["a@x.com"], ["b@x.com"]] := by
  have h := notify_no_dedup S7 7 ["a@x.com", "b@x.com"] (fun _ _ => false) P7 2 rfl
    (fun j i _ => rfl)
  exact ⟨rfl, h.1, h.2⟩

/-- Claim C10: whenever the notification job finds the post and returns
a dict at all, the reported `sent` equals the full recipient-list length
and one mail-sink call per recipient was invoked: every invoked send
call increments the single counter, so a returned result can never
report fewer successes than attempts. -/
theorem notify_result_counts_all (store : Store) (pid : Int)
    (emails : List String) (failsAt : Nat → Bool) (post : Post) (r : NotifyResult)
    (hfound : getPost store pid = some post)
    (hret : (send_post_notification store pid emails failsAt).2.2 = Except.ok r) :
    r.sent = emails.length ∧
    (send_post_notification store pid emails failsAt).2.1.length = emails.length := by
  rw [notify_found_split store pid emails failsAt post hfound] at hret ⊢
  cases hl : (notifyLoop post.title failsAt emails 0 0).2 with
  | error e => rw [hl] at hret; simp [Except.map] at hret
  | ok m =>
    rw [hl] at hret
    simp only [Except.map, Except.ok.injEq] at hret
    obtain ⟨hm, hlen⟩ := notifyLoop_ok_inv post.title failsAt emails 0 0 m hl
    subst hret
    exact ⟨by simpa using hm, hlen⟩

/-- Witness for C10: a returned dict on two recipients reports
`sent = 2` after exactly two calls. -/
theorem notify_result_counts_all_w :
    (send_post_notification S7 7 ["a@x.com", "b@x.com"] (fun _ => false)).2.2 =
      Except.ok { sent := 2, post_id := some 7, error := none } ∧
    (send_post_notification S7 7 ["a@x.com", "b@x.com"] (fun _ => false)).2.1.length = 2 :=
  ⟨rfl, (notify_result_counts_all S7 7 ["a@x.com", "b@x.com"] (fun _ => false) P7
    { sent := 2, post_id := some 7, error := none } rfl rfl).2⟩
